import Mathlib

/-!
Verification of the WAV streaming decoder in `src/streaming_wav.rs`
(stream-wav).

The byte source is modelled as a `List Nat` of byte values; `read_exact n`
succeeds iff at least `n` bytes remain. The construction loop of
`StreamingWav::new` is modelled by `StreamWav.parseChunksF` (fuel-indexed;
`fuel = length + 1` is always sufficient since every loop iteration
consumes at least the 8-byte chunk header). A slice-indexing abort in the
Rust code (out-of-bounds access into an undersized fmt chunk payload) is
modelled by the distinguished result `NewResult.panicked`.
-/

namespace StreamWav

/-- The four ASCII bytes of the marker b"RIFF" (line 26). -/
def riffTag : List Nat := [82, 73, 70, 70]

/-- The four ASCII bytes of the marker b"WAVE" (line 29). -/
def waveTag : List Nat := [87, 65, 86, 69]

/-- The four ASCII bytes of the chunk tag b"fmt " (line 44). -/
def fmtTag : List Nat := [102, 109, 116, 32]

/-- The four ASCII bytes of the chunk tag b"data" (line 61). -/
def dataTag : List Nat := [100, 97, 116, 97]

/-- Little-endian 16-bit read, `u16::from_le_bytes`, on the first two bytes. -/
def le16 (l : List Nat) : Nat := l.getD 0 0 + 256 * l.getD 1 0

/-- Little-endian 32-bit read, `u32::from_le_bytes`, on the first four bytes. -/
def le32 (l : List Nat) : Nat :=
  l.getD 0 0 + 256 * l.getD 1 0 + 65536 * l.getD 2 0 + 16777216 * l.getD 3 0

/-- Little-endian 32-bit encoding of a number below 2^32, inverse of `le32`. -/
def le32Enc (n : Nat) : List Nat :=
  [n % 256, n / 256 % 256, n / 65536 % 256, n / 16777216 % 256]

/-- The error enum `StreamingWavError` (lines 107-123); `ioError` is the
variant wrapping an underlying read failure. -/
inductive StreamingWavError where
  | ioError : StreamingWavError
  | invalidRiffFormat : StreamingWavError
  | invalidWaveFormat : StreamingWavError
  | unsupportedAudioFormat (code : Nat) : StreamingWavError
  | unsupportedBitsPerSample (bits : Nat) : StreamingWavError
deriving DecidableEq, Repr

/-- Static data of the `WavSample` trait (lines 125-132): the RIFF format
code `FORMAT` and bit depth `BITS` of the statically selected encoding. -/
structure WavSample where
  FORMAT : Nat
  BITS : Nat
deriving DecidableEq, Repr

/-- The `StreamingWav` struct (lines 12-17): the owned byte source
(positioned after construction at the first data byte) plus the captured
`sample_rate` and `channels`. -/
structure StreamingWav where
  reader : List Nat
  sample_rate : Nat
  channels : Nat
deriving DecidableEq, Repr

/-- Outcome of `StreamingWav::new`: a handle, a typed error, or an abort
of the process via a slice-indexing panic. -/
inductive NewResult where
  | ok (wav : StreamingWav) : NewResult
  | err (e : StreamingWavError) : NewResult
  | panicked : NewResult
deriving DecidableEq, Repr

/-- The chunk-scanning loop of `StreamingWav::new` (lines 37-77), indexed by
fuel. Each iteration reads an 8-byte chunk header (short read: `ioError`).
On b"fmt " it reads `chunk_size` payload bytes and slices them at 0..2,
2..4, 4..8 and 14..16: a declared size below 2 hits an out-of-bounds slice
(abort) before the format check, a size in [2,16) hits one after it. On
b"data" it returns the handle. Any other tag skips `chunk_size` bytes plus
one padding byte when `chunk_size` is odd; the skip (an `io::copy` over
`take`) never fails at end of input. -/
def parseChunksF (S : WavSample) : Nat → List Nat → Nat → Nat → NewResult
  | 0, _, _, _ => NewResult.err .ioError
  | fuel + 1, l, sample_rate, channels =>
    if 8 ≤ l.length then
      if l.take 4 = fmtTag then
        if le32 (l.drop 4) ≤ (l.drop 8).length then
          if 2 ≤ le32 (l.drop 4) then
            if le16 ((l.drop 8).take (le32 (l.drop 4))) ≠ S.FORMAT then
              NewResult.err (.unsupportedAudioFormat (le16 ((l.drop 8).take (le32 (l.drop 4)))))
            else if 16 ≤ le32 (l.drop 4) then
              if le16 (((l.drop 8).take (le32 (l.drop 4))).drop 14) ≠ S.BITS then
                NewResult.err
                  (.unsupportedBitsPerSample (le16 (((l.drop 8).take (le32 (l.drop 4))).drop 14)))
              else
                parseChunksF S fuel ((l.drop 8).drop (le32 (l.drop 4)))
                  (le32 (((l.drop 8).take (le32 (l.drop 4))).drop 4))
                  (le16 (((l.drop 8).take (le32 (l.drop 4))).drop 2))
            else NewResult.panicked
          else NewResult.panicked
        else NewResult.err .ioError
      else if l.take 4 = dataTag then
        NewResult.ok ⟨l.drop 8, sample_rate, channels⟩
      else
        parseChunksF S fuel
          ((l.drop 8).drop
            (if le32 (l.drop 4) % 2 = 1 then le32 (l.drop 4) + 1 else le32 (l.drop 4)))
          sample_rate channels
    else NewResult.err .ioError

/-- The chunk-scanning loop with its canonical (always sufficient) fuel. -/
def parseChunks (S : WavSample) (l : List Nat) (sample_rate channels : Nat) : NewResult :=
  parseChunksF S (l.length + 1) l sample_rate channels

/-- `StreamingWav::new` (lines 20-78): read the 12-byte RIFF header (short
read: `ioError`), check b"RIFF" at 0..4 and b"WAVE" at 8..12, then scan
chunks starting from `sample_rate = 0`, `channels = 0`. -/
def new (S : WavSample) (l : List Nat) : NewResult :=
  if 12 ≤ l.length then
    if l.take 4 = riffTag then
      if (l.drop 8).take 4 = waveTag then
        parseChunksF S (l.length + 1) (l.drop 12) 0 0
      else NewResult.err .invalidWaveFormat
    else NewResult.err .invalidRiffFormat
  else NewResult.err .ioError

/-- Static data of `impl WavSample for u8` (lines 134-137). -/
def u8Wav : WavSample := ⟨1, 8⟩

/-- Static data of `impl WavSample for i16` (lines 148-151). -/
def i16Wav : WavSample := ⟨1, 16⟩

/-- Static data of `impl WavSample for f32` (lines 162-165). -/
def f32Wav : WavSample := ⟨3, 32⟩

/-- Signed reinterpretation of `i16::from_le_bytes [b0, b1]`. -/
def i16FromLe (b0 b1 : Nat) : Int :=
  if b0 + 256 * b1 < 32768 then (b0 + 256 * b1 : Int) else (b0 + 256 * b1 : Int) - 65536

/-- `<u8 as WavSample>::next` (lines 139-145): read one byte `b` and output
`(b as i16 - 128) * 256`; a failed `read_exact` yields `none`, consuming
the remaining (fewer than needed) bytes. -/
def u8Next (l : List Nat) : Option Int × List Nat :=
  if 1 ≤ l.length then (some (((l.getD 0 0 : Int) - 128) * 256), l.drop 1)
  else (none, [])

/-- `<i16 as WavSample>::next` (lines 153-159): read two bytes little-endian
as a signed 16-bit sample; a failed `read_exact` yields `none`, consuming
the remaining (fewer than needed) bytes. -/
def i16Next (l : List Nat) : Option Int × List Nat :=
  if 2 ≤ l.length then (some (i16FromLe (l.getD 0 0) (l.getD 1 0)), l.drop 2)
  else (none, [])

/-- `Iterator::next` for `StreamingWav<i16, R>` (lines 99-105): pure
delegation to `<i16 as WavSample>::next` on the owned reader. -/
def nextSampleI16 (w : StreamingWav) : Option Int × StreamingWav :=
  ((i16Next w.reader).1, ⟨(i16Next w.reader).2, w.sample_rate, w.channels⟩)

/-- Iterate a per-sample decode routine: `iterNext f k l` is the result of
the (k+1)-st call to `next` starting from reader state `l`. -/
def iterNext (f : List Nat → Option Int × List Nat) : Nat → List Nat → Option Int × List Nat
  | 0, l => f l
  | k + 1, l => iterNext f k (f l).2

/-- The full sample sequence produced by repeatedly calling
`<i16 as WavSample>::next` until it yields `none`. -/
def samplesI16 : List Nat → List Int
  | b0 :: b1 :: rest => i16FromLe b0 b1 :: samplesI16 rest
  | _ => []

/-- The full sample sequence produced by repeatedly calling
`<u8 as WavSample>::next` until it yields `none`. -/
def samplesU8 : List Nat → List Int
  | b :: rest => ((b : Int) - 128) * 256 :: samplesU8 rest
  | [] => []

/-- A chunk payload followed by the RIFF padding byte when its length is
odd, as it appears on the wire. -/
def paddedPayload (p : List Nat) : List Nat :=
  p ++ (if p.length % 2 = 1 then [0] else [])

/-- Wire form of one chunk with tag `t` and payload `p`: tag, declared
little-endian size, payload, padding byte when the size is odd. -/
def junkChunk (t p : List Nat) : List Nat := t ++ le32Enc p.length ++ paddedPayload p

/-- Wire form of a list of chunks, concatenated. -/
def junkChunks : List (List Nat × List Nat) → List Nat
  | [] => []
  | (t, p) :: js => junkChunk t p ++ junkChunks js

/-- The four ASCII bytes of a dummy chunk tag b"JUNK". -/
def junkTag : List Nat := [74, 85, 78, 75]

/-- A 16-byte fmt chunk payload declaring format 1 (PCM), 1 channel, rate
44100, byte rate 88200, block align 2, 16 bits per sample. -/
def fmtPayloadI16 : List Nat := [1, 0, 1, 0, 68, 172, 0, 0, 136, 88, 1, 0, 2, 0, 16, 0]

/-- A 16-byte fmt chunk payload declaring format 1 (PCM), 1 channel, rate
44100, byte rate 44100, block align 1, 8 bits per sample. -/
def fmtPayloadU8 : List Nat := [1, 0, 1, 0, 68, 172, 0, 0, 68, 172, 0, 0, 1, 0, 8, 0]

/-- A 16-byte fmt chunk payload declaring format 1 (PCM) but 32 bits per
sample, used against the float encoding whose format code is 3. -/
def fmtPayloadPcm32 : List Nat := [1, 0, 1, 0, 68, 172, 0, 0, 136, 88, 1, 0, 2, 0, 32, 0]

/-- The six data bytes of the minimal 16-bit container: samples 0, 32767,
-32768 in little-endian. -/
def dataPayloadC4 : List Nat := [0, 0, 255, 127, 0, 128]

/-- The minimal 16-bit PCM mono container: RIFF/WAVE header, fmt chunk
(format 1, 1 channel, rate 44100, 16 bits), data chunk of six bytes. -/
def minimalI16Container : List Nat :=
  riffTag ++ [0, 0, 0, 0] ++ waveTag ++ fmtTag ++ le32Enc 16 ++ fmtPayloadI16 ++
    dataTag ++ le32Enc 6 ++ dataPayloadC4

/-- An 8-bit PCM container whose data chunk holds the single byte 0x80. -/
def u8Container : List Nat :=
  riffTag ++ [0, 0, 0, 0] ++ waveTag ++ fmtTag ++ le32Enc 16 ++ fmtPayloadU8 ++
    dataTag ++ le32Enc 1 ++ [128]

/-- A container whose chunk scan reaches b"data" without any fmt chunk. -/
def dataOnlyContainer : List Nat :=
  riffTag ++ [0, 0, 0, 0] ++ waveTag ++ dataTag ++ le32Enc 0

/-- A container with a fmt chunk of declared size 0 (empty payload). -/
def fmtSize0Container : List Nat :=
  riffTag ++ [0, 0, 0, 0] ++ waveTag ++ fmtTag ++ le32Enc 0

/-- A container with a fmt chunk of declared size 15, whose payload
matches the 16-bit PCM encoding up to the truncated bits field. -/
def fmtSize15Container : List Nat :=
  riffTag ++ [0, 0, 0, 0] ++ waveTag ++ fmtTag ++ le32Enc 15 ++
    [1, 0, 1, 0, 68, 172, 0, 0, 136, 88, 1, 0, 2, 0, 16]

/-- The fmt and data chunks of the minimal 16-bit container, without the
RIFF/WAVE header, used as the tail behind a junk chunk. -/
def fmtDataTail : List Nat :=
  fmtTag ++ le32Enc 16 ++ fmtPayloadI16 ++ (dataTag ++ le32Enc 6 ++ dataPayloadC4)

end StreamWav

namespace StreamWav

/-- The chunk scan is fuel-insensitive once the fuel exceeds the input
length: every iteration consumes at least 8 bytes. -/
theorem parseChunksF_fuel (S : WavSample) :
    ∀ f₁ f₂ l r c, l.length < f₁ → l.length < f₂ →
      parseChunksF S f₁ l r c = parseChunksF S f₂ l r c := by
  intro f₁
  induction f₁ with
  | zero => intro f₂ l r c h1 h2; exact absurd h1 (by omega)
  | succ a ih =>
    intro f₂ l r c h1 h2
    cases f₂ with
    | zero => exact absurd h2 (by omega)
    | succ b =>
      rw [parseChunksF.eq_2, parseChunksF.eq_2]
      by_cases h8 : 8 ≤ l.length
      · simp only [if_pos h8]
        by_cases hfmt : l.take 4 = fmtTag
        · simp only [if_pos hfmt]
          by_cases hsz : le32 (l.drop 4) ≤ (l.drop 8).length
          · simp only [if_pos hsz]
            by_cases h2c : 2 ≤ le32 (l.drop 4)
            · simp only [if_pos h2c]
              by_cases hfm : le16 ((l.drop 8).take (le32 (l.drop 4))) ≠ S.FORMAT
              · simp only [if_pos hfm]
              · simp only [if_neg hfm]
                by_cases h16 : 16 ≤ le32 (l.drop 4)
                · simp only [if_pos h16]
                  by_cases hb : le16 (((l.drop 8).take (le32 (l.drop 4))).drop 14) ≠ S.BITS
                  · simp only [if_pos hb]
                  · simp only [if_neg hb]
                    apply ih
                    · simp only [List.length_drop]; omega
                    · simp only [List.length_drop]; omega
                · simp only [if_neg h16]
            · simp only [if_neg h2c]
          · simp only [if_neg hsz]
        · simp only [if_neg hfmt]
          by_cases hdata : l.take 4 = dataTag
          · simp only [if_pos hdata]
          · simp only [if_neg hdata]
            apply ih
            · simp only [List.length_drop]; omega
            · simp only [List.length_drop]; omega
      · simp only [if_neg h8]

/-- The little-endian size encoding has four bytes. -/
theorem le32Enc_length (n : Nat) : (le32Enc n).length = 4 := by simp [le32Enc]

/-- Reading back an encoded 32-bit size recovers the size. -/
theorem le32_le32Enc (n : Nat) (rest : List Nat) (h : n < 4294967296) :
    le32 (le32Enc n ++ rest) = n := by
  simp only [le32, le32Enc, List.cons_append, List.nil_append,
    List.getD_cons_zero, List.getD_cons_succ]
  omega

/-- One unfolding of the chunk scan, with the recursive occurrences
re-expressed through `parseChunks` (valid whenever a full chunk header is
available). -/
theorem parseChunks_step (S : WavSample) (l : List Nat) (r c : Nat) (h8 : 8 ≤ l.length) :
    parseChunks S l r c =
      if l.take 4 = fmtTag then
        if le32 (l.drop 4) ≤ (l.drop 8).length then
          if 2 ≤ le32 (l.drop 4) then
            if le16 ((l.drop 8).take (le32 (l.drop 4))) ≠ S.FORMAT then
              NewResult.err (.unsupportedAudioFormat (le16 ((l.drop 8).take (le32 (l.drop 4)))))
            else if 16 ≤ le32 (l.drop 4) then
              if le16 (((l.drop 8).take (le32 (l.drop 4))).drop 14) ≠ S.BITS then
                NewResult.err
                  (.unsupportedBitsPerSample (le16 (((l.drop 8).take (le32 (l.drop 4))).drop 14)))
              else
                parseChunks S ((l.drop 8).drop (le32 (l.drop 4)))
                  (le32 (((l.drop 8).take (le32 (l.drop 4))).drop 4))
                  (le16 (((l.drop 8).take (le32 (l.drop 4))).drop 2))
            else NewResult.panicked
          else NewResult.panicked
        else NewResult.err .ioError
      else if l.take 4 = dataTag then
        NewResult.ok ⟨l.drop 8, r, c⟩
      else
        parseChunks S
          ((l.drop 8).drop
            (if le32 (l.drop 4) % 2 = 1 then le32 (l.drop 4) + 1 else le32 (l.drop 4)))
          r c := by
  have h1 : parseChunksF S l.length ((l.drop 8).drop (le32 (l.drop 4)))
      (le32 (((l.drop 8).take (le32 (l.drop 4))).drop 4))
      (le16 (((l.drop 8).take (le32 (l.drop 4))).drop 2)) =
      parseChunks S ((l.drop 8).drop (le32 (l.drop 4)))
        (le32 (((l.drop 8).take (le32 (l.drop 4))).drop 4))
        (le16 (((l.drop 8).take (le32 (l.drop 4))).drop 2)) := by
    apply parseChunksF_fuel
    · simp only [List.length_drop]; omega
    · simp only [List.length_drop]; omega
  have h2 : parseChunksF S l.length
      ((l.drop 8).drop
        (if le32 (l.drop 4) % 2 = 1 then le32 (l.drop 4) + 1 else le32 (l.drop 4))) r c =
      parseChunks S
        ((l.drop 8).drop
          (if le32 (l.drop 4) % 2 = 1 then le32 (l.drop 4) + 1 else le32 (l.drop 4))) r c := by
    apply parseChunksF_fuel
    · simp only [List.length_drop]; omega
    · simp only [List.length_drop]; omega
  conv_lhs => rw [parseChunks, parseChunksF.eq_2]
  rw [if_pos h8, h1, h2]

/-- Scanning from a b"data" chunk header returns the handle immediately,
with the reader at the first payload byte and the size field unread. -/
theorem parseChunks_atData (S : WavSample) (s4 rest : List Nat) (r c : Nat)
    (hs4 : s4.length = 4) :
    parseChunks S (dataTag ++ s4 ++ rest) r c = NewResult.ok ⟨rest, r, c⟩ := by
  have h8 : 8 ≤ (dataTag ++ s4 ++ rest).length := by simp [dataTag, hs4]
  have htake : (dataTag ++ s4 ++ rest).take 4 = dataTag := by
    rw [List.append_assoc]
    exact List.take_left' (by simp [dataTag])
  have hdrop : (dataTag ++ s4 ++ rest).drop 8 = rest :=
    List.drop_left' (by simp [dataTag, hs4])
  rw [parseChunks_step S _ r c h8, htake, if_neg (by decide), if_pos rfl, hdrop]

/-- Scanning from an unrecognised chunk of declared size `n` skips the `n`
payload bytes plus one padding byte exactly when `n` is odd, leaving the
captured rate and channel state untouched. -/
theorem parseChunks_atSkip (S : WavSample) (t : List Nat) (n : Nat) (q rest : List Nat)
    (r c : Nat) (ht4 : t.length = 4) (htf : t ≠ fmtTag) (htd : t ≠ dataTag)
    (hn : n < 4294967296)
    (hq : q.length = n + (if n % 2 = 1 then 1 else 0)) :
    parseChunks S (t ++ le32Enc n ++ q ++ rest) r c = parseChunks S rest r c := by
  have h8 : 8 ≤ (t ++ le32Enc n ++ q ++ rest).length := by
    simp [ht4, le32Enc_length]; omega
  have htake : (t ++ le32Enc n ++ q ++ rest).take 4 = t := by
    rw [List.append_assoc, List.append_assoc]
    exact List.take_left' ht4
  have hdrop4 : (t ++ le32Enc n ++ q ++ rest).drop 4 = le32Enc n ++ (q ++ rest) := by
    rw [List.append_assoc, List.append_assoc]
    exact List.drop_left' ht4
  have hsize : le32 ((t ++ le32Enc n ++ q ++ rest).drop 4) = n := by
    rw [hdrop4, ← List.append_assoc]
    exact le32_le32Enc n _ hn
  have hdrop8 : (t ++ le32Enc n ++ q ++ rest).drop 8 = q ++ rest := by
    rw [List.append_assoc]
    exact List.drop_left' (by simp [ht4, le32Enc_length])
  have hdropq : (q ++ rest).drop (if n % 2 = 1 then n + 1 else n) = rest := by
    apply List.drop_left'
    rw [hq]
    by_cases hpar : n % 2 = 1 <;> simp [hpar]
  rw [parseChunks_step S _ r c h8, htake, if_neg htf, if_neg htd, hsize, hdrop8, hdropq]

/-- Scanning from a well-formed b"fmt " chunk whose format code and bit
depth match the selected encoding continues behind the chunk with the
declared channel count and sample rate captured. -/
theorem parseChunks_atFmt (S : WavSample) (p rest : List Nat) (r c : Nat)
    (hp16 : 16 ≤ p.length) (hp32 : p.length < 4294967296)
    (hfm : le16 p = S.FORMAT) (hbits : le16 (p.drop 14) = S.BITS) :
    parseChunks S (fmtTag ++ le32Enc p.length ++ p ++ rest) r c =
      parseChunks S rest (le32 (p.drop 4)) (le16 (p.drop 2)) := by
  have h8 : 8 ≤ (fmtTag ++ le32Enc p.length ++ p ++ rest).length := by
    simp [fmtTag, le32Enc_length]
  have htake : (fmtTag ++ le32Enc p.length ++ p ++ rest).take 4 = fmtTag := by
    rw [List.append_assoc, List.append_assoc]
    exact List.take_left' (by simp [fmtTag])
  have hdrop4 : (fmtTag ++ le32Enc p.length ++ p ++ rest).drop 4 =
      le32Enc p.length ++ (p ++ rest) := by
    rw [List.append_assoc, List.append_assoc]
    exact List.drop_left' (by simp [fmtTag])
  have hsize : le32 ((fmtTag ++ le32Enc p.length ++ p ++ rest).drop 4) = p.length := by
    rw [hdrop4, ← List.append_assoc]
    exact le32_le32Enc _ _ hp32
  have hdrop8 : (fmtTag ++ le32Enc p.length ++ p ++ rest).drop 8 = p ++ rest := by
    rw [List.append_assoc]
    exact List.drop_left' (by simp [fmtTag, le32Enc_length])
  have htakep : (p ++ rest).take p.length = p := List.take_left p rest
  have hdropp : (p ++ rest).drop p.length = rest := List.drop_left p rest
  rw [parseChunks_step S _ r c h8, htake, if_pos rfl, hsize, hdrop8, htakep, hdropp]
  rw [if_pos (by simp), if_pos (by omega), hfm, if_neg (by simp), if_pos (by omega),
    hbits, if_neg (by simp)]

/-- Scanning from a b"fmt " chunk whose declared format code differs from
the selected encoding fails with that code, provided the payload is at
least two bytes (smaller payloads abort instead, see claim C2). -/
theorem parseChunks_atFmtBadFormat (S : WavSample) (p rest : List Nat) (r c : Nat)
    (hp2 : 2 ≤ p.length) (hp32 : p.length < 4294967296)
    (hne : le16 p ≠ S.FORMAT) :
    parseChunks S (fmtTag ++ le32Enc p.length ++ p ++ rest) r c =
      NewResult.err (.unsupportedAudioFormat (le16 p)) := by
  have h8 : 8 ≤ (fmtTag ++ le32Enc p.length ++ p ++ rest).length := by
    simp [fmtTag, le32Enc_length]
  have htake : (fmtTag ++ le32Enc p.length ++ p ++ rest).take 4 = fmtTag := by
    rw [List.append_assoc, List.append_assoc]
    exact List.take_left' (by simp [fmtTag])
  have hdrop4 : (fmtTag ++ le32Enc p.length ++ p ++ rest).drop 4 =
      le32Enc p.length ++ (p ++ rest) := by
    rw [List.append_assoc, List.append_assoc]
    exact List.drop_left' (by simp [fmtTag])
  have hsize : le32 ((fmtTag ++ le32Enc p.length ++ p ++ rest).drop 4) = p.length := by
    rw [hdrop4, ← List.append_assoc]
    exact le32_le32Enc _ _ hp32
  have hdrop8 : (fmtTag ++ le32Enc p.length ++ p ++ rest).drop 8 = p ++ rest := by
    rw [List.append_assoc]
    exact List.drop_left' (by simp [fmtTag, le32Enc_length])
  have htakep : (p ++ rest).take p.length = p := List.take_left p rest
  rw [parseChunks_step S _ r c h8, htake, if_pos rfl, hsize, hdrop8, htakep]
  rw [if_pos (by simp), if_pos (by omega), if_pos hne]

/-- Construction on a valid RIFF/WAVE header (with arbitrary declared
total size bytes) reduces to the chunk scan over the body, starting from
rate 0 and 0 channels. -/
theorem new_header (S : WavSample) (x4 body : List Nat) (hx4 : x4.length = 4) :
    new S (riffTag ++ x4 ++ waveTag ++ body) = parseChunks S body 0 0 := by
  have hlen : (riffTag ++ x4 ++ waveTag ++ body).length = 12 + body.length := by
    simp [riffTag, waveTag, hx4]; omega
  have htake : (riffTag ++ x4 ++ waveTag ++ body).take 4 = riffTag := by
    rw [List.append_assoc, List.append_assoc]
    exact List.take_left' (by simp [riffTag])
  have hdrop8 : (riffTag ++ x4 ++ waveTag ++ body).drop 8 = waveTag ++ body := by
    rw [List.append_assoc]
    exact List.drop_left' (by simp [riffTag, hx4])
  have hdrop8take : ((riffTag ++ x4 ++ waveTag ++ body).drop 8).take 4 = waveTag := by
    rw [hdrop8]
    exact List.take_left' (by simp [waveTag])
  have hdrop12 : (riffTag ++ x4 ++ waveTag ++ body).drop 12 = body :=
    List.drop_left' (by simp [riffTag, waveTag, hx4])
  unfold new
  rw [if_pos (by rw [hlen]; omega), htake, if_pos rfl, hdrop8take, if_pos rfl, hdrop12]
  apply parseChunksF_fuel
  · rw [hlen]; omega
  · omega

/-- Wire length of a padded payload: the declared size plus one exactly
when the declared size is odd. -/
theorem paddedPayload_length (p : List Nat) :
    (paddedPayload p).length = p.length + (if p.length % 2 = 1 then 1 else 0) := by
  by_cases h : p.length % 2 = 1 <;> simp [paddedPayload, h]

/-- The chunk scan passes over any run of unrecognised chunks without
changing the captured rate and channel state. -/
theorem parseChunks_junk (S : WavSample) (js : List (List Nat × List Nat))
    (rest : List Nat) (r c : Nat)
    (hjs : ∀ tp ∈ js,
      (tp.1.length = 4 ∧ tp.1 ≠ fmtTag ∧ tp.1 ≠ dataTag) ∧ tp.2.length < 4294967296) :
    parseChunks S (junkChunks js ++ rest) r c = parseChunks S rest r c := by
  induction js with
  | nil => simp [junkChunks]
  | cons tp js ih =>
    obtain ⟨t, p⟩ := tp
    obtain ⟨⟨ht4, htf, htd⟩, hp32⟩ := hjs (t, p) (List.mem_cons_self _ _)
    have heq : junkChunks ((t, p) :: js) ++ rest =
        t ++ le32Enc p.length ++ paddedPayload p ++ (junkChunks js ++ rest) := by
      simp [junkChunks, junkChunk, List.append_assoc]
    rw [heq,
      parseChunks_atSkip S t p.length (paddedPayload p) (junkChunks js ++ rest) r c
        ht4 htf htd hp32 (paddedPayload_length p),
      ih (fun x hx => hjs x (List.mem_cons_of_mem _ hx))]

/-- A per-sample read that fails consumes whatever remained of the source
(16-bit case). -/
theorem i16Next_no_value (l : List Nat) (h : (i16Next l).1 = none) : (i16Next l).2 = [] := by
  by_cases h2 : 2 ≤ l.length
  · simp [i16Next, h2] at h
  · simp [i16Next, h2]

/-- A per-sample read that fails consumes whatever remained of the source
(8-bit case). -/
theorem u8Next_no_value (l : List Nat) (h : (u8Next l).1 = none) : (u8Next l).2 = [] := by
  by_cases h1 : 1 ≤ l.length
  · simp [u8Next, h1] at h
  · simp [u8Next, h1]

/-- From the empty source, every further request yields no sample and
leaves the source empty. -/
theorem iterNext_nil (f : List Nat → Option Int × List Nat) (hf : f [] = (none, [])) :
    ∀ k, iterNext f k [] = (none, []) := by
  intro k
  induction k with
  | zero => simpa [iterNext]
  | succ k ih => simp [iterNext, hf, ih]

/-- A 16-bit sample read from fewer than two remaining bytes yields no
sample. -/
theorem i16Next_short (l : List Nat) (h : l.length < 2) : (i16Next l).1 = none := by
  unfold i16Next
  rw [if_neg (by omega)]

/-- An 8-bit sample read from an exhausted source yields no sample. -/
theorem u8Next_short (l : List Nat) (h : l.length < 1) : (u8Next l).1 = none := by
  unfold u8Next
  rw [if_neg (by omega)]

end StreamWav

namespace StreamWav

/-- Claim C1 (counterexample): a container whose chunk scan reaches b"data"
without any fmt chunk constructs successfully, and the resulting handle
has sample_rate 0 — so sample_rate is not "never 0 after successful
construction". -/
theorem C1_counterexample :
    new i16Wav dataOnlyContainer = NewResult.ok ⟨[], 0, 0⟩ := by decide

/-- Claim C1 (amended): sample_rate is captured during the header scan
from the declared rate field of the fmt chunk (bytes 4..8), and may be 0;
for a container whose scan sees exactly one fmt chunk (with any
unrecognised chunks before or after it) and then b"data", construction
succeeds and sample_rate equals exactly the declared rate, channels the
declared channel count. -/
theorem C1_sample_rate_is_declared_rate (S : WavSample) (x4 : List Nat)
    (js1 : List (List Nat × List Nat)) (p : List Nat)
    (js2 : List (List Nat × List Nat)) (s4 rest : List Nat)
    (hx4 : x4.length = 4)
    (hjs1 : ∀ tp ∈ js1,
      (tp.1.length = 4 ∧ tp.1 ≠ fmtTag ∧ tp.1 ≠ dataTag) ∧ tp.2.length < 4294967296)
    (hp16 : 16 ≤ p.length) (hp32 : p.length < 4294967296)
    (hfm : le16 p = S.FORMAT) (hbits : le16 (p.drop 14) = S.BITS)
    (hjs2 : ∀ tp ∈ js2,
      (tp.1.length = 4 ∧ tp.1 ≠ fmtTag ∧ tp.1 ≠ dataTag) ∧ tp.2.length < 4294967296)
    (hs4 : s4.length = 4) :
    new S (riffTag ++ x4 ++ waveTag ++
        (junkChunks js1 ++ (fmtTag ++ le32Enc p.length ++ p ++
          (junkChunks js2 ++ (dataTag ++ s4 ++ rest))))) =
      NewResult.ok ⟨rest, le32 (p.drop 4), le16 (p.drop 2)⟩ := by
  rw [new_header S x4 _ hx4, parseChunks_junk S js1 _ 0 0 hjs1,
    parseChunks_atFmt S p _ 0 0 hp16 hp32 hfm hbits,
    parseChunks_junk S js2 _ _ _ hjs2, parseChunks_atData S s4 rest _ _ hs4]

/-- Claim C1 (witness): the amended theorem applied to the minimal 16-bit
container with no junk chunks. -/
theorem C1_witness :
    new i16Wav (riffTag ++ [0, 0, 0, 0] ++ waveTag ++
        (junkChunks [] ++ (fmtTag ++ le32Enc 16 ++ fmtPayloadI16 ++
          (junkChunks [] ++ (dataTag ++ le32Enc 6 ++ dataPayloadC4))))) =
      NewResult.ok ⟨dataPayloadC4, 44100, 1⟩ := by
  exact C1_sample_rate_is_declared_rate i16Wav [0, 0, 0, 0] [] fmtPayloadI16 []
    (le32Enc 6) dataPayloadC4 (by decide) (by decide) (by decide) (by decide)
    (by decide) (by decide) (by decide) (by decide)

/-- Claim C2: handling of a b"fmt " chunk is not total — a declared
chunk_size below 16 makes the construction index the payload out of
bounds and abort (panic) instead of returning a typed error: declared
size 0 aborts at the 0..2 slice, declared size 15 (format code accepted)
aborts at the 14..16 slice. -/
theorem C2_undersized_fmt_aborts :
    new i16Wav fmtSize0Container = NewResult.panicked ∧
    new i16Wav fmtSize15Container = NewResult.panicked := by decide

/-- Claim C3: an unrecognised chunk of odd declared size is skipped
together with its payload plus exactly one padding byte — inserting any
such chunk (tag `t`, odd-length payload `p`, one padding byte) right
after the RIFF/WAVE header yields the same construction result as the
container without it, hence the same sample_rate, channels and sample
sequence. -/
theorem C3_odd_junk_chunk_skipped (S : WavSample) (x4 t p : List Nat)
    (pad : Nat) (rest : List Nat)
    (hx4 : x4.length = 4) (ht4 : t.length = 4)
    (htf : t ≠ fmtTag) (htd : t ≠ dataTag)
    (hodd : p.length % 2 = 1) (hp32 : p.length < 4294967296) :
    new S (riffTag ++ x4 ++ waveTag ++ (t ++ le32Enc p.length ++ (p ++ [pad]) ++ rest)) =
      new S (riffTag ++ x4 ++ waveTag ++ rest) := by
  rw [new_header S x4 _ hx4, new_header S x4 rest hx4,
    parseChunks_atSkip S t p.length (p ++ [pad]) rest 0 0 ht4 htf htd hp32
      (by simp [hodd])]

/-- Claim C3 (witness): a b"JUNK" chunk of declared size 3 (payload
[9, 9, 9] plus one padding byte) before the fmt and data chunks parses
identically to the container without it. -/
theorem C3_witness :
    new i16Wav (riffTag ++ [0, 0, 0, 0] ++ waveTag ++
        (junkTag ++ le32Enc 3 ++ ([9, 9, 9] ++ [0]) ++ fmtDataTail)) =
      new i16Wav (riffTag ++ [0, 0, 0, 0] ++ waveTag ++ fmtDataTail) := by
  exact C3_odd_junk_chunk_skipped i16Wav [0, 0, 0, 0] junkTag [9, 9, 9] 0 fmtDataTail
    (by decide) (by decide) (by decide) (by decide) (by decide) (by decide)

/-- Claim C4: on the minimal 16-bit PCM mono container (fmt: format 1,
1 channel, rate 44100, 16 bits; data bytes 00 00 FF 7F 00 80),
construction succeeds with channels 1 and sample_rate 44100, and
iteration yields exactly the samples 0, 32767, -32768 and then ends. -/
theorem C4_minimal_container :
    new i16Wav minimalI16Container = NewResult.ok ⟨dataPayloadC4, 44100, 1⟩ ∧
    samplesI16 dataPayloadC4 = [0, 32767, -32768] ∧
    iterNext i16Next 3 dataPayloadC4 = (none, []) := by decide

/-- Claim C5: the 8-bit unsigned PCM decode routine reads exactly one
byte `b` and outputs the 16-bit signed sample (b - 128) * 256; on the
8-bit container whose data is the single byte 0x80 construction succeeds
and the sample sequence yields exactly 0 and then ends. -/
theorem C5_u8_decode_rule :
    (∀ (b : Nat) (rest : List Nat),
      u8Next (b :: rest) = (some (((b : Int) - 128) * 256), rest)) ∧
    new u8Wav u8Container = NewResult.ok ⟨[128], 44100, 1⟩ ∧
    samplesU8 [128] = [0] := by
  refine ⟨fun b rest => ?_, by decide, by decide⟩
  simp [u8Next]

/-- Claim C6: when fewer bytes remain than one sample requires, the next
decoded sample is "no value" (end of sequence) with no error surfaced —
for the 16-bit decode routine, the 8-bit decode routine, and the
iterator of a 16-bit handle with a truncated final sample. -/
theorem C6_truncated_sample_ends_stream :
    (∀ l : List Nat, l.length < 2 → (i16Next l).1 = none) ∧
    (∀ l : List Nat, l.length < 1 → (u8Next l).1 = none) ∧
    (∀ w : StreamingWav, w.reader.length < 2 → (nextSampleI16 w).1 = none) := by
  refine ⟨fun l h => i16Next_short l h, fun l h => u8Next_short l h, fun w h => ?_⟩
  unfold nextSampleI16
  exact i16Next_short w.reader h

/-- Claim C6 (witness): one trailing byte for the 16-bit encoding, the
empty source for the 8-bit encoding, and a handle holding one trailing
byte. -/
theorem C6_witness :
    (i16Next [7]).1 = none ∧ (u8Next []).1 = none ∧
    (nextSampleI16 ⟨[7], 44100, 1⟩).1 = none :=
  ⟨C6_truncated_sample_ends_stream.1 [7] (by decide),
   C6_truncated_sample_ends_stream.2.1 [] (by decide),
   C6_truncated_sample_ends_stream.2.2 ⟨[7], 44100, 1⟩ (by decide)⟩

/-- Claim C7 (counterexample): the empty byte sequence does not begin
with b"RIFF", yet construction fails with the I/O fault (the 12-byte
header read fails first), not with Invalid-RIFF-marker. -/
theorem C7_counterexample :
    ([] : List Nat).take 4 ≠ riffTag ∧
    new i16Wav [] ≠ NewResult.err .invalidRiffFormat ∧
    new i16Wav [] = NewResult.err .ioError := by decide

/-- Claim C7 (amended): for any byte sequence of at least 12 bytes not
beginning with b"RIFF", construction fails with the Invalid-RIFF-marker
fault (a constructor distinct from every other fault); sequences shorter
than 12 bytes fail with the I/O fault instead. -/
theorem C7_invalid_riff_marker :
    (∀ (S : WavSample) (l : List Nat), 12 ≤ l.length → l.take 4 ≠ riffTag →
      new S l = NewResult.err .invalidRiffFormat) ∧
    (∀ (S : WavSample) (l : List Nat), l.length < 12 →
      new S l = NewResult.err .ioError) := by
  constructor
  · intro S l h12 hr
    unfold new
    rw [if_pos h12, if_neg hr]
  · intro S l h
    unfold new
    rw [if_neg (by omega)]

/-- Claim C7 (witness): a 12-byte sequence not starting with b"RIFF"
fails with Invalid-RIFF-marker; a 1-byte sequence fails with the I/O
fault. -/
theorem C7_witness :
    new i16Wav [1, 2, 3, 4, 5, 6, 7, 8, 9, 10, 11, 12] =
      NewResult.err .invalidRiffFormat ∧
    new i16Wav [82] = NewResult.err .ioError :=
  ⟨C7_invalid_riff_marker.1 i16Wav [1, 2, 3, 4, 5, 6, 7, 8, 9, 10, 11, 12]
      (by decide) (by decide),
   C7_invalid_riff_marker.2 i16Wav [82] (by decide)⟩

/-- Claim C8: a container whose fmt chunk (after any run of unrecognised
chunks) declares an audio-format code different from the selected
encoding fails with Unsupported-audio-format carrying the declared
code. -/
theorem C8_unsupported_audio_format (S : WavSample) (x4 : List Nat)
    (js : List (List Nat × List Nat)) (p rest : List Nat)
    (hx4 : x4.length = 4)
    (hjs : ∀ tp ∈ js,
      (tp.1.length = 4 ∧ tp.1 ≠ fmtTag ∧ tp.1 ≠ dataTag) ∧ tp.2.length < 4294967296)
    (hp2 : 2 ≤ p.length) (hp32 : p.length < 4294967296)
    (hne : le16 p ≠ S.FORMAT) :
    new S (riffTag ++ x4 ++ waveTag ++
        (junkChunks js ++ (fmtTag ++ le32Enc p.length ++ p ++ rest))) =
      NewResult.err (.unsupportedAudioFormat (le16 p)) := by
  rw [new_header S x4 _ hx4, parseChunks_junk S js _ 0 0 hjs,
    parseChunks_atFmtBadFormat S p rest 0 0 hp2 hp32 hne]

/-- Claim C8 (witness): a container declaring format code 1 against the
float encoding (which expects code 3) fails with Unsupported-audio-format
carrying value 1. -/
theorem C8_witness :
    new f32Wav (riffTag ++ [0, 0, 0, 0] ++ waveTag ++
        (junkChunks [] ++ (fmtTag ++ le32Enc 16 ++ fmtPayloadPcm32 ++ []))) =
      NewResult.err (.unsupportedAudioFormat 1) := by
  exact C8_unsupported_audio_format f32Wav [0, 0, 0, 0] [] fmtPayloadPcm32 []
    (by decide) (by decide) (by decide) (by decide) (by decide)

/-- Claim C9: a container whose chunk scan reaches b"data" (behind any
run of unrecognised chunks) without ever having seen a fmt chunk
constructs successfully, and the handle has channels 0 and
sample_rate 0. -/
theorem C9_data_without_fmt (S : WavSample) (x4 : List Nat)
    (js : List (List Nat × List Nat)) (s4 rest : List Nat)
    (hx4 : x4.length = 4)
    (hjs : ∀ tp ∈ js,
      (tp.1.length = 4 ∧ tp.1 ≠ fmtTag ∧ tp.1 ≠ dataTag) ∧ tp.2.length < 4294967296)
    (hs4 : s4.length = 4) :
    new S (riffTag ++ x4 ++ waveTag ++ (junkChunks js ++ (dataTag ++ s4 ++ rest))) =
      NewResult.ok ⟨rest, 0, 0⟩ := by
  rw [new_header S x4 _ hx4, parseChunks_junk S js _ 0 0 hjs,
    parseChunks_atData S s4 rest 0 0 hs4]

/-- Claim C9 (witness): a container with a single b"JUNK" chunk and then
b"data", no fmt chunk, constructs with rate 0 and 0 channels. -/
theorem C9_witness :
    new i16Wav (riffTag ++ [0, 0, 0, 0] ++ waveTag ++
        (junkChunks [(junkTag, [9, 9, 9])] ++ (dataTag ++ le32Enc 0 ++ []))) =
      NewResult.ok ⟨[], 0, 0⟩ := by
  exact C9_data_without_fmt i16Wav [0, 0, 0, 0] [(junkTag, [9, 9, 9])] (le32Enc 0) []
    (by decide) (by decide) (by decide)

/-- Claim C10: the sample sequence is idempotently exhausted — once a
request yields no sample, every subsequent request (any number of further
calls, for both integer decode routines) also yields no sample. -/
theorem C10_idempotent_exhaustion :
    (∀ l : List Nat, (i16Next l).1 = none →
      ∀ k, (iterNext i16Next k ((i16Next l).2)).1 = none) ∧
    (∀ l : List Nat, (u8Next l).1 = none →
      ∀ k, (iterNext u8Next k ((u8Next l).2)).1 = none) := by
  constructor
  · intro l h k
    rw [i16Next_no_value l h, iterNext_nil i16Next (by decide) k]
  · intro l h k
    rw [u8Next_no_value l h, iterNext_nil u8Next (by decide) k]

/-- Claim C10 (witness): after the 16-bit sequence ends on a one-byte
reader, the fourth further request still yields no sample; after the
8-bit sequence ends on the empty reader, the third further request still
yields no sample. -/
theorem C10_witness :
    (iterNext i16Next 3 ((i16Next [5]).2)).1 = none ∧
    (iterNext u8Next 2 ((u8Next []).2)).1 = none :=
  ⟨C10_idempotent_exhaustion.1 [5] (by decide) 3,
   C10_idempotent_exhaustion.2 [] (by decide) 2⟩

end StreamWav
